/-
  Verification of the OwlTrek analytical core (date-window generator, night
  analyzer, weather aggregation) against its natural-language specification.

  Numeric model: instants are epoch milliseconds as ℤ; physical quantities
  (illumination fraction, cloud cover, temperature, ...) are exact rationals ℚ.
  JavaScript `Math.round` is round-half-toward-positive-infinity, embedded as
  `jsRound`.  Optional values (`Date | undefined`, `Date | null`) are `Option`.
-/
import Mathlib

namespace OwlTrek

/-- JavaScript `Math.round`: round to the nearest integer, exact halves
rounding toward positive infinity. -/
def jsRound (x : ℚ) : ℤ := ⌊x + 1/2⌋

/-! ## Weather aggregation (`processHourlyData` / `average` in `src/lib/weather.ts`,
shipped inside `src/src/lib/analyzer.ts`).

An hourly sample carries its local calendar day (as a day index, the code's
`hourly.time[i].split('T')[0]`), its local hour (`getHours()`, always 0–23,
hence `Fin 24`), and the six forecast quantities. -/

/-- One hourly forecast sample, as consumed by `processHourlyData`. -/
structure HourlySample where
  day : ℤ
  hour : Fin 24
  cloudCover : ℚ
  temperature : ℚ
  windSpeed : ℚ
  precipitationProb : ℚ
  visibility : ℚ
  humidity : ℚ
deriving DecidableEq

/-- The per-night aggregate emitted by `processHourlyData` (interface
`NightWeather` in the source): numeric fields are `Math.round`ed, the two
flags are computed from the unrounded aggregates. -/
structure NightWeather where
  cloudCover : ℤ
  temperature : ℤ
  windSpeed : ℤ
  precipitationProb : ℤ
  visibility : ℤ
  humidity : ℤ
  isClear : Bool
  isGoodWeather : Bool
deriving DecidableEq

/-- Source `average`: sum divided by length, 0 for the empty list. -/
def average (nums : List ℚ) : ℚ :=
  if nums = [] then 0 else nums.sum / nums.length

/-- Source `Math.max(...xs)` on a non-empty list (the only way it is called). -/
def maxOf : List ℚ → ℚ
  | [] => 0
  | h :: t => t.foldl max h

/-- The bucketing rule of `processHourlyData`: an hour ≥ 20 is attributed to
its own date, an hour ≤ 2 to the previous date, anything else to no night
bucket. -/
def nightBucketDay (s : HourlySample) : Option ℤ :=
  if 20 ≤ s.hour.val then some s.day
  else if s.hour.val ≤ 2 then some (s.day - 1)
  else none

/-- The samples landing in the night bucket of day `d`. -/
def nightSamples (samples : List HourlySample) (d : ℤ) : List HourlySample :=
  samples.filter (fun s => nightBucketDay s = some d)

/-- The aggregate record built for one (non-empty) night bucket. -/
def mkNightWeather (l : List HourlySample) : NightWeather :=
  let avgCloudCover := average (l.map HourlySample.cloudCover)
  let avgWindSpeed := average (l.map HourlySample.windSpeed)
  let maxPrecipProb := maxOf (l.map HourlySample.precipitationProb)
  { cloudCover := jsRound avgCloudCover
    temperature := jsRound (average (l.map HourlySample.temperature))
    windSpeed := jsRound avgWindSpeed
    precipitationProb := jsRound maxPrecipProb
    visibility := jsRound (average (l.map HourlySample.visibility))
    humidity := jsRound (average (l.map HourlySample.humidity))
    isClear := decide (avgCloudCover < 30)
    isGoodWeather := decide (avgCloudCover < 30) && decide (maxPrecipProb < 20)
      && decide (avgWindSpeed < 25) }

/-- Source `processHourlyData`, viewed as the lookup function of the returned
`Map`: day `d` is a key exactly when at least one sample falls in its night
bucket, and its value aggregates those samples. -/
def processHourlyData (samples : List HourlySample) (d : ℤ) : Option NightWeather :=
  if nightSamples samples d = [] then none
  else some (mkNightWeather (nightSamples samples d))

/-! ## Date-window generator (`getNextDays` / `getNextWeek` in `src/lib/dates.ts`,
shipped inside `src/src/lib/analyzer.ts`).

The source runs on a UTC host (the code comment: "Critical for Cloudflare
Workers: The server runs in UTC"), so `date-fns`'s host-local `startOfDay` and
`addDays` operate on the UTC clock.  A timezone is modelled as its offset
function `ofs : ℤ → ℤ` (epoch ms ↦ offset ms added to UTC to obtain local wall
time); `toZonedTime` of `date-fns-tz` produces the wall-clock encoding
`t + ofs t`. -/

/-- Milliseconds in one day. -/
def dayMs : ℤ := 86400000

/-- Source `toZonedTime(nowUtc, timezone)` on a UTC host: shift the instant by
the zone's offset at that instant, giving the wall-clock encoding. -/
def toZonedTime (ofs : ℤ → ℤ) (t : ℤ) : ℤ := t + ofs t

/-- Source `startOfDay` on a UTC host: truncate to the enclosing day boundary
(floor division, correct also for pre-epoch instants). -/
def startOfDay (t : ℤ) : ℤ := dayMs * Int.fdiv t dayMs

/-- Source `addDays(date, i)` on a UTC host: the UTC calendar has no
transitions, so calendar-day addition is adding whole days. -/
def addDays (t : ℤ) (i : ℕ) : ℤ := t + (i : ℤ) * dayMs

/-- Source `getNextDays(timezone, count)`: wall-clock midnights of `count`
consecutive local calendar days starting at local "today". -/
def getNextDays (ofs : ℤ → ℤ) (now : ℤ) (count : ℕ) : List ℤ :=
  (List.range count).map (fun i => addDays (startOfDay (toZonedTime ofs now)) i)

/-- Source `getNextWeek(timezone)`: the same loop with a hard-coded count of 7. -/
def getNextWeek (ofs : ℤ → ℤ) (now : ℤ) : List ℤ :=
  (List.range 7).map (fun i => addDays (startOfDay (toZonedTime ofs now)) i)

/-- The local calendar day index of instant `now` in the zone `ofs`: the day
number of its wall-clock reading. -/
def localCalendarDay (ofs : ℤ → ℤ) (now : ℤ) : ℤ :=
  Int.fdiv (toZonedTime ofs now) dayMs

/-! ## Night analyzer, in-source variant (`analyzeNight` /
`checkMoonSetsNearSunset` in `src/src/pages/api/send-digest.ts`).

The astronomical oracle's outputs (SunCalc illumination fraction, phase,
moonrise/moonset/sunset instants) are passed in directly; rise, set and sunset
are `Option` because SunCalc may not produce them (polar cases).  The
`dateString` output field, pure presentation formatting, is not modelled. -/

/-- The two good-night categories of the analyzer. -/
inductive GoodNightType
  | stargazing
  | hiking
deriving DecidableEq

namespace Digest

/-- Two hours in milliseconds (the source's `diffHours >= -2 && diffHours <= 2`
scaled from hours to ms, an exact equivalence). -/
def twoHoursMs : ℤ := 7200000

/-- Source `checkMoonSetsNearSunset(moonSet, sunset)`: false when either event
is missing, otherwise true when moonset is within two hours of sunset. -/
def checkMoonSetsNearSunset (moonSet sunset : Option ℤ) : Bool :=
  match moonSet, sunset with
  | some ms, some ss => decide (-twoHoursMs ≤ ms - ss) && decide (ms - ss ≤ twoHoursMs)
  | _, _ => false

/-- Output record of the send-digest `analyzeNight` (its `dateString`, pure
formatting, omitted). -/
structure NightAnalysis where
  illumination : ℤ
  moonPhase : ℚ
  moonRise : Option ℤ
  moonSet : Option ℤ
  sunset : Option ℤ
  weather : String
  isGoodNight : Bool
  goodNightType : Option GoodNightType
  reason : Option String
deriving DecidableEq

/-- The decision chain of the send-digest `analyzeNight`: under the (mock,
always true) clear-weather guard, full moon, then new moon, then
moonset-near-sunset, first match wins.  Returns the `goodNightType` /
`reason` pair. -/
def decision (fraction : ℚ) (moonSet sunset : Option ℤ) :
    Option GoodNightType × Option String :=
  let isClearWeather := true
  if isClearWeather then
    if decide (fraction * 100 > 90) then
      (some .hiking, some "Full moon for night hiking")
    else if decide (fraction * 100 < 10) then
      (some .stargazing, some "New moon for stargazing")
    else if checkMoonSetsNearSunset moonSet sunset then
      (some .stargazing, some "Moon sets early — dark skies")
    else (none, none)
  else (none, none)

/-- Source `analyzeNight` of `send-digest.ts` (mock weather, always clear). -/
def analyzeNight (fraction moonPhase : ℚ) (moonRise moonSet sunset : Option ℤ) :
    NightAnalysis :=
  let tr := decision fraction moonSet sunset
  { illumination := jsRound (fraction * 100)
    moonPhase := moonPhase
    moonRise := moonRise
    moonSet := moonSet
    sunset := sunset
    weather := "Clear"
    isGoodNight := tr.1.isSome
    goodNightType := tr.1
    reason := tr.2 }

end Digest

/-! ## Night analyzer, canonical weather-gated variant (spec §4.2).

`send-digest.ts` calls `analyzeNight(date, lat, lon, timezone, weather)` — a
five-argument version returning `goodNightType`, `reason` and a `weather`
summary — imported from `src/lib/analyzer.ts`, but that revision of the
analyzer body is not among the provided sources (only older variants are).
The definitions in this namespace are modelled from the spec; each doc
comment records this. -/

namespace Canon

/-- One hour in milliseconds. -/
def oneHourMs : ℤ := 3600000

/-- Four hours in milliseconds. -/
def fourHoursMs : ℤ := 14400000

/-- Which of the spec's three moon-free-evening cases matched. -/
inductive MoonFreeCase
  | allEvening
  | setsEarly
  | lateRise
deriving DecidableEq

/-- Modelled from the spec (§4.2 Step 2 case a), body missing from the
sources: the moon set before sunset and the next moonrise is after local
midnight. -/
def caseMoonDownAllEvening (ss : ℤ) (moonSet nextRise : Option ℤ)
    (localMidnight : ℤ) : Bool :=
  (match moonSet with
    | some m => decide (m < ss)
    | none => false) &&
  (match nextRise with
    | some rr => decide (localMidnight < rr)
    | none => false)

/-- Modelled from the spec (§4.2 Step 2 case b), body missing from the
sources: the moon sets within one hour after sunset. -/
def caseMoonSetsEarly (ss : ℤ) (moonSet : Option ℤ) : Bool :=
  match moonSet with
  | some m => decide (ss ≤ m) && decide (m ≤ ss + oneHourMs)
  | none => false

/-- Modelled from the spec (§4.2 Step 2 case c), body missing from the
sources: the next moonrise occurs at least four hours after sunset. -/
def caseLateMoonrise (ss : ℤ) (nextRise : Option ℤ) : Bool :=
  match nextRise with
  | some rr => decide (ss + fourHoursMs ≤ rr)
  | none => false

/-- Modelled from the spec (§4.2 Step 2), body missing from the sources: the
moon-free-evening case analysis, evaluated in the spec's fixed order with the
first match winning; `none` when sunset is unavailable or no case matches. -/
def moonFreeCase (sunset moonSet nextRise : Option ℤ) (localMidnight : ℤ) :
    Option MoonFreeCase :=
  match sunset with
  | none => none
  | some ss =>
    if caseMoonDownAllEvening ss moonSet nextRise localMidnight then some .allEvening
    else if caseMoonSetsEarly ss moonSet then some .setsEarly
    else if caseLateMoonrise ss nextRise then some .lateRise
    else none

/-- Modelled from the spec (§4.2 Step 2), body missing from the sources: true
exactly when some moon-free-evening case matches. -/
def moonFreeEvening (sunset moonSet nextRise : Option ℤ) (localMidnight : ℤ) : Bool :=
  (moonFreeCase sunset moonSet nextRise localMidnight).isSome

/-- Modelled from the spec (§4.2 Step 4.4), body missing from the sources:
the reason string for each moon-free-evening case. -/
def moonFreeReason : MoonFreeCase → String
  | .allEvening => "Moon down all evening — dark skies"
  | .setsEarly => "Moon sets early — dark skies"
  | .lateRise => "Late moonrise — dark evening"

/-- Modelled from the spec (§4.2 Step 2 case a), body missing from the
sources: the next moonrise relevant to tonight — tonight's moonrise if it is
after sunset, otherwise the following day's. -/
def nextRiseAfterSunset (ss : ℤ) (moonRise nextDayMoonRise : Option ℤ) : Option ℤ :=
  match moonRise with
  | some rr => if ss < rr then some rr else nextDayMoonRise
  | none => nextDayMoonRise

/-- Modelled from the spec: the next moonrise as used by the analyzer
(irrelevant, hence `none`, when sunset is unavailable). -/
def effectiveNextRise (sunset moonRise nextDayMoonRise : Option ℤ) : Option ℤ :=
  match sunset with
  | some ss => nextRiseAfterSunset ss moonRise nextDayMoonRise
  | none => none

/-- Modelled from the spec (§4.2 Step 3), body missing from the sources: the
weather gate — clear enough when cloud cover < 30, max precipitation
probability < 20 and wind speed < 25, and optimistically true when no weather
bucket exists for the date. -/
def isClearEnough : Option NightWeather → Bool
  | none => true
  | some w =>
    decide (w.cloudCover < 30) && decide (w.precipitationProb < 20)
      && decide (w.windSpeed < 25)

/-- Modelled from the spec (§3, §4.2 Step 3), body missing from the sources:
the descriptive weather summary — "Too far out" when no bucket exists. -/
def weatherSummaryOf : Option NightWeather → String
  | none => "Too far out"
  | some w => if w.cloudCover < 30 then "Clear" else "Partly Cloudy"

/-- Night Analysis record of the canonical analyzer (spec §3; the
`dateString` field, pure formatting, is not modelled). -/
structure NightAnalysis where
  illumination : ℤ
  moonPhase : ℚ
  moonRise : Option ℤ
  moonSet : Option ℤ
  sunset : Option ℤ
  weatherSummary : String
  isGoodNight : Bool
  category : Option GoodNightType
  reason : Option String
deriving DecidableEq

/-- Modelled from the spec (§4.2 Step 4), body missing from the sources: the
priority-ordered decision, first match wins — weather gate, full moon, new
moon, moon-free evening.  Returns the category / reason pair. -/
def decision (fraction : ℚ) (sunset moonSet nextRise : Option ℤ)
    (localMidnight : ℤ) (weather : Option NightWeather) :
    Option GoodNightType × Option String :=
  if isClearEnough weather then
    if decide (fraction * 100 > 90) then
      (some .hiking, some "Full moon for night hiking")
    else if decide (fraction * 100 < 10) then
      (some .stargazing, some "New moon for stargazing")
    else
      match moonFreeCase sunset moonSet nextRise localMidnight with
      | some c => (some .stargazing, some (moonFreeReason c))
      | none => (none, none)
  else (none, none)

/-- Modelled from the spec (§4.2), body missing from the sources: the
canonical weather-gated analyzer. -/
def analyzeNight (fraction moonPhase : ℚ)
    (moonRise moonSet sunset nextDayMoonRise : Option ℤ)
    (localMidnight : ℤ) (weather : Option NightWeather) : NightAnalysis :=
  let nextRise := effectiveNextRise sunset moonRise nextDayMoonRise
  let cr := decision fraction sunset moonSet nextRise localMidnight weather
  { illumination := jsRound (fraction * 100)
    moonPhase := moonPhase
    moonRise := moonRise
    moonSet := moonSet
    sunset := sunset
    weatherSummary := weatherSummaryOf weather
    isGoodNight := cr.1.isSome
    category := cr.1
    reason := cr.2 }

end Canon

/-! ## Concrete inputs used by witnesses and counterexamples. -/

/-- Two night samples of one bucket whose cloud-cover average is 59/2. -/
def c8samples : List HourlySample :=
  [{ day := 0, hour := 21, cloudCover := 29, temperature := 0, windSpeed := 0,
     precipitationProb := 0, visibility := 0, humidity := 0 },
   { day := 0, hour := 22, cloudCover := 30, temperature := 0, windSpeed := 0,
     precipitationProb := 0, visibility := 0, humidity := 0 }]

/-- Two night samples with favourable weather whose cloud-cover average 59/2
is below 30 but rounds to 30. -/
def c10samples : List HourlySample :=
  [{ day := 0, hour := 21, cloudCover := 29, temperature := 10, windSpeed := 5,
     precipitationProb := 0, visibility := 10000, humidity := 50 },
   { day := 0, hour := 22, cloudCover := 30, temperature := 10, windSpeed := 5,
     precipitationProb := 0, visibility := 10000, humidity := 50 }]

/-- A weather bucket failing the clear-enough gate: cloud cover 31, everything
else favourable. -/
def gateFailWeather : NightWeather :=
  { cloudCover := 31, temperature := 10, windSpeed := 5, precipitationProb := 0,
    visibility := 10000, humidity := 50, isClear := false, isGoodWeather := false }

/-! ## Theorems -/

/-- Half-up rounding bracket: `jsRound x` is the integer `n` with
`n - 1/2 ≤ x < n + 1/2`. -/
theorem jsRound_bracket (x : ℚ) :
    ((jsRound x : ℚ) - 1/2 ≤ x ∧ x < (jsRound x : ℚ) + 1/2) := by
  unfold jsRound
  have h1 := Int.floor_le (x + 1/2)
  have h2 := Int.lt_floor_add_one (x + 1/2)
  constructor <;> push_cast at h1 h2 ⊢ <;> linarith

/-- The illumination field of the send-digest analyzer is the rounded
percentage. -/
theorem digest_illumination (f p : ℚ) (r ms ss : Option ℤ) :
    (Digest.analyzeNight f p r ms ss).illumination = jsRound (f * 100) := rfl

/-- Claim C9: the reported illumination percent equals the oracle's
illumination fraction times 100, rounded to the nearest integer with exact
halves rounded up — the reported value `n` is the unique integer with
`n - 1/2 ≤ fraction * 100 < n + 1/2` — and the round-half-up convention gives
96 at fraction 0.955 and rounds upward at the 0.125, 0.375, 0.625, 0.875
boundaries. -/
theorem illumination_rounding :
    (∀ f p : ℚ, ∀ r ms ss : Option ℤ,
      ((Digest.analyzeNight f p r ms ss).illumination : ℚ) - 1/2 ≤ f * 100 ∧
      f * 100 < ((Digest.analyzeNight f p r ms ss).illumination : ℚ) + 1/2) ∧
    (Digest.analyzeNight (955/1000) 0 none none none).illumination = 96 ∧
    (Digest.analyzeNight (125/1000) 0 none none none).illumination = 13 ∧
    (Digest.analyzeNight (375/1000) 0 none none none).illumination = 38 ∧
    (Digest.analyzeNight (625/1000) 0 none none none).illumination = 63 ∧
    (Digest.analyzeNight (875/1000) 0 none none none).illumination = 88 := by
  refine ⟨fun f p r ms ss => jsRound_bracket (f * 100), ?_, ?_, ?_, ?_, ?_⟩ <;>
    rw [digest_illumination] <;> unfold jsRound <;> norm_num

/-- Every decision pair of the send-digest analyzer is either the empty pair
or a category together with a non-empty reason. -/
theorem digest_decision_shape (f : ℚ) (ms ss : Option ℤ) :
    Digest.decision f ms ss = (none, none) ∨
    ∃ t s, Digest.decision f ms ss = (some t, some s) ∧ s ≠ "" := by
  unfold Digest.decision
  simp only []
  split_ifs <;>
    first
      | (exact absurd trivial (by assumption))
      | (left; rfl)
      | (right; exact ⟨_, _, rfl, by decide⟩)

/-- Every decision pair of the canonical analyzer is either the empty pair
or a category together with a non-empty reason. -/
theorem canon_decision_shape (f : ℚ) (ss ms nr : Option ℤ) (mid : ℤ)
    (w : Option NightWeather) :
    Canon.decision f ss ms nr mid w = (none, none) ∨
    ∃ t s, Canon.decision f ss ms nr mid w = (some t, some s) ∧ s ≠ "" := by
  unfold Canon.decision
  split_ifs
  · right; exact ⟨_, _, rfl, by decide⟩
  · right; exact ⟨_, _, rfl, by decide⟩
  · cases hC : Canon.moonFreeCase ss ms nr mid with
    | none => left; simp [hC]
    | some c =>
      right
      refine ⟨GoodNightType.stargazing, Canon.moonFreeReason c, ?_, ?_⟩
      · simp [hC]
      · cases c <;> decide
  · left; rfl

/-- Claim C6: in every analysis returned by either analyzer variant,
`isGoodNight` is true exactly when the category (`goodNightType`) is present,
and a reason — always a non-empty string — is present exactly when
`isGoodNight` is true. -/
theorem goodNight_invariant (f p : ℚ) (r ms ss ndr : Option ℤ) (mid : ℤ)
    (w : Option NightWeather) :
    (Digest.analyzeNight f p r ms ss).isGoodNight
      = (Digest.analyzeNight f p r ms ss).goodNightType.isSome ∧
    (Digest.analyzeNight f p r ms ss).reason.isSome
      = (Digest.analyzeNight f p r ms ss).isGoodNight ∧
    (∀ s, (Digest.analyzeNight f p r ms ss).reason = some s → s ≠ "") ∧
    (Canon.analyzeNight f p r ms ss ndr mid w).isGoodNight
      = (Canon.analyzeNight f p r ms ss ndr mid w).category.isSome ∧
    (Canon.analyzeNight f p r ms ss ndr mid w).reason.isSome
      = (Canon.analyzeNight f p r ms ss ndr mid w).isGoodNight ∧
    (∀ s, (Canon.analyzeNight f p r ms ss ndr mid w).reason = some s → s ≠ "") := by
  rcases digest_decision_shape f ms ss with h | ⟨t, s0, h, hs⟩ <;>
    rcases canon_decision_shape f ss ms (Canon.effectiveNextRise ss r ndr) mid w with
      h2 | ⟨t2, s2, h2, hs2⟩ <;>
    refine ⟨?_, ?_, ?_, ?_, ?_, ?_⟩ <;>
    simp_all [Digest.analyzeNight, Canon.analyzeNight]

/-- Witness for C6 at a concrete full-moon input: the reason produced there
is the non-empty string of the full-moon branch. -/
theorem goodNight_invariant_witness : ("Full moon for night hiking" : String) ≠ "" := by
  have h := (goodNight_invariant (95/100) 0 none none none none 0 none).2.2.1
  exact h "Full moon for night hiking" (by norm_num [Digest.analyzeNight, Digest.decision])

/-- Claim C1 (spec-modelled analyzer): when weather data exists and the
clear-enough test fails — cloud cover not below 30, or precipitation
probability not below 20, or wind speed not below 25 — the analysis is not a
good night and carries no category and no reason, whatever the moon data
(including a new moon). -/
theorem weather_gate_blocks (f p : ℚ) (r ms ss ndr : Option ℤ) (mid : ℤ)
    (w : NightWeather)
    (h : ¬(w.cloudCover < 30 ∧ w.precipitationProb < 20 ∧ w.windSpeed < 25)) :
    (Canon.analyzeNight f p r ms ss ndr mid (some w)).isGoodNight = false ∧
    (Canon.analyzeNight f p r ms ss ndr mid (some w)).category = none ∧
    (Canon.analyzeNight f p r ms ss ndr mid (some w)).reason = none := by
  have hg : Canon.isClearEnough (some w) = false := by
    unfold Canon.isClearEnough
    rw [Bool.eq_false_iff]
    intro hT
    simp only [Bool.and_eq_true, decide_eq_true_eq] at hT
    exact h ⟨hT.1.1, hT.1.2, hT.2⟩
  refine ⟨?_, ?_, ?_⟩ <;> simp [Canon.analyzeNight, Canon.decision, hg]

/-- Witness for C1: cloud cover 31 with everything else favourable and an
illumination fraction of 5% (a new moon) is not a good night. -/
theorem weather_gate_blocks_witness :
    (Canon.analyzeNight (5/100) 0 none none none none 0 (some gateFailWeather)).isGoodNight
        = false ∧
    (Canon.analyzeNight (5/100) 0 none none none none 0 (some gateFailWeather)).category
        = none ∧
    (Canon.analyzeNight (5/100) 0 none none none none 0 (some gateFailWeather)).reason
        = none :=
  weather_gate_blocks (5/100) 0 none none none none 0 gateFailWeather (by decide)

/-- Claim C4 (spec-modelled analyzer): with no weather entry for the date,
`isGoodNight` is decided purely by the moon criteria (full moon, new moon,
moon-free evening), and the weather summary is "Too far out", not "Clear". -/
theorem horizon_fallback (f p : ℚ) (r ms ss ndr : Option ℤ) (mid : ℤ) :
    (Canon.analyzeNight f p r ms ss ndr mid none).isGoodNight
      = (decide (f * 100 > 90) || decide (f * 100 < 10)
          || Canon.moonFreeEvening ss ms (Canon.effectiveNextRise ss r ndr) mid) ∧
    (Canon.analyzeNight f p r ms ss ndr mid none).weatherSummary = "Too far out" ∧
    (((Canon.analyzeNight f p r ms ss ndr mid none).weatherSummary == "Clear") = false) := by
  have hmain : (Canon.decision f ss ms (Canon.effectiveNextRise ss r ndr) mid none).1.isSome
      = (decide (f * 100 > 90) || decide (f * 100 < 10)
          || Canon.moonFreeEvening ss ms (Canon.effectiveNextRise ss r ndr) mid) := by
    unfold Canon.decision Canon.moonFreeEvening
    have hg : Canon.isClearEnough (none : Option NightWeather) = true := rfl
    rw [hg]
    split_ifs with ht h1 h2
    · simp [h1]
    · simp [h1, h2]
    · cases hC : Canon.moonFreeCase ss ms (Canon.effectiveNextRise ss r ndr) mid <;>
        simp [hC, h1, h2]
    · simp at ht
  exact ⟨hmain, rfl, rfl⟩

/-- Claim C5 (spec-modelled analyzer): the decision is priority-ordered with
the first match winning.  Whenever the weather gate passes and the full-moon
test holds, the category is hiking with the full-moon reason — in particular
also when `moonFreeEvening` holds, since the moon-time inputs here are
arbitrary; likewise a (non-full) new moon resolves to stargazing before any
moon-free-evening case is consulted.  The output type carries at most one
category. -/
theorem priority_order (f p : ℚ) (r ms ss ndr : Option ℤ) (mid : ℤ)
    (w : Option NightWeather) :
    (Canon.isClearEnough w = true → f * 100 > 90 →
      (Canon.analyzeNight f p r ms ss ndr mid w).category = some GoodNightType.hiking ∧
      (Canon.analyzeNight f p r ms ss ndr mid w).reason = some "Full moon for night hiking") ∧
    (Canon.isClearEnough w = true → ¬(f * 100 > 90) → f * 100 < 10 →
      (Canon.analyzeNight f p r ms ss ndr mid w).category = some GoodNightType.stargazing ∧
      (Canon.analyzeNight f p r ms ss ndr mid w).reason = some "New moon for stargazing") := by
  constructor
  · intro hw hf
    constructor <;> simp [Canon.analyzeNight, Canon.decision, hw, hf]
  · intro hw hnf hn
    constructor <;> simp [Canon.analyzeNight, Canon.decision, hw, hnf, hn]

/-- Witness for C5 at a concrete input: illumination 95%, weather beyond the
horizon (gate passes), category resolves to hiking. -/
theorem priority_order_witness :
    (Canon.analyzeNight (95/100) 0 none none none none 0 none).category
        = some GoodNightType.hiking ∧
    (Canon.analyzeNight (95/100) 0 none none none none 0 none).reason
        = some "Full moon for night hiking" :=
  (priority_order (95/100) 0 none none none none 0 none).1 rfl (by norm_num)

/-- Claim C7 (in-source `checkMoonSetsNearSunset` plus the spec-modelled
analyzer): the analysis is total in the optional astronomical facts — a
missing moonset or sunset makes the moonset-near-sunset check false, a
missing sunset makes `moonFreeEvening` false, the optional fields are
reproduced as `null` in the output, and a complete analysis (here: its
decided category) is still returned. -/
theorem missing_facts_safe (f p : ℚ) (r ms ndr ss : Option ℤ) (mid : ℤ)
    (w : Option NightWeather) :
    Digest.checkMoonSetsNearSunset none ss = false ∧
    Digest.checkMoonSetsNearSunset ms none = false ∧
    Canon.moonFreeEvening none ms (Canon.effectiveNextRise none r ndr) mid = false ∧
    (Canon.analyzeNight f p r ms none ndr mid w).sunset = none ∧
    (Canon.analyzeNight f p r ms ss ndr mid w).moonRise = r ∧
    (Canon.analyzeNight f p r ms ss ndr mid w).moonSet = ms ∧
    (Canon.analyzeNight f p r ms ss ndr mid w).illumination = jsRound (f * 100) ∧
    (Canon.analyzeNight f p r ms none ndr mid w).category
      = (if Canon.isClearEnough w then
          (if f * 100 > 90 then some GoodNightType.hiking
           else if f * 100 < 10 then some GoodNightType.stargazing
           else none)
         else none) := by
  refine ⟨?_, ?_, rfl, rfl, rfl, rfl, rfl, ?_⟩
  · cases ss <;> rfl
  · cases ms <;> rfl
  · show (Canon.decision f none ms (Canon.effectiveNextRise none r ndr) mid w).1 = _
    have hC : Canon.moonFreeCase none ms (Canon.effectiveNextRise none r ndr) mid = none := rfl
    rcases Bool.eq_false_or_eq_true (Canon.isClearEnough w) with hw | hw <;>
      by_cases h1 : f * 100 > 90 <;> by_cases h2 : f * 100 < 10 <;>
        simp [Canon.decision, hC, hw, h1, h2]

/-- Claim C2: for every timezone-offset function and every count, the
date-window generator returns exactly `count` instants, strictly increasing;
element `i` is the wall-clock midnight (a multiple of `dayMs`) of the local
calendar day `today + i`, where `today` is the local calendar day of `now` in
the target zone.  The formula holds for every offset function and depends on
it only through its value at `now`, so consecutive elements are one local
calendar day apart regardless of any DST transition inside the window; and
`getNextWeek` is the `count = 7` instance. -/
theorem getNextDays_spec (ofs : ℤ → ℤ) (now : ℤ) (count : ℕ) :
    (getNextDays ofs now count).length = count ∧
    (∀ i : ℕ, i < count →
      (getNextDays ofs now count)[i]? = some (dayMs * (localCalendarDay ofs now + (i : ℤ)))) ∧
    List.Pairwise (· < ·) (getNextDays ofs now count) ∧
    getNextWeek ofs now = getNextDays ofs now 7 := by
  refine ⟨by simp [getNextDays], ?_, ?_, rfl⟩
  · intro i hi
    simp only [getNextDays, List.getElem?_map, List.getElem?_range hi, Option.map_some',
      addDays, startOfDay, localCalendarDay, toZonedTime, Option.some.injEq]
    ring
  · refine List.Pairwise.map _ ?_ (List.pairwise_lt_range count)
    intro a b hab
    have hc : (a : ℤ) < (b : ℤ) := by exact_mod_cast hab
    have : (a : ℤ) * dayMs < (b : ℤ) * dayMs := by
      have hd : (0 : ℤ) < dayMs := by norm_num [dayMs]
      exact mul_lt_mul_of_pos_right hc hd
    simpa [addDays] using by linarith

/-- Witness for C2: in a zone eight hours behind UTC, the second generated
day for a concrete `now` is the wall-clock midnight 86400000 ms after the
first. -/
theorem getNextDays_spec_witness :
    (getNextDays (fun _ => -28800000) 1765872000000 3)[1]? = some 1765929600000 := by
  have h := (getNextDays_spec (fun _ => -28800000) 1765872000000 3).2.1 1 (by decide)
  rw [h]
  decide

/-- Case characterization of the spec-modelled `moonFreeEvening` with sunset
available. -/
theorem moonFreeEvening_iff (ss : ℤ) (ms r : Option ℤ) (mid : ℤ) :
    Canon.moonFreeEvening (some ss) ms r mid = true ↔
      ((∃ m, ms = some m ∧ m < ss) ∧ (∃ rr, r = some rr ∧ mid < rr)) ∨
      (∃ m, ms = some m ∧ ss ≤ m ∧ m ≤ ss + Canon.oneHourMs) ∨
      (∃ rr, r = some rr ∧ ss + Canon.fourHoursMs ≤ rr) := by
  unfold Canon.moonFreeEvening Canon.moonFreeCase Canon.caseMoonDownAllEvening
    Canon.caseMoonSetsEarly Canon.caseLateMoonrise
  cases ms <;> cases r <;> simp <;> split_ifs <;> simp_all

/-- Claim C3 (spec-modelled `moonFreeEvening`): with sunset available, the
flag holds exactly in the three specified cases — (a) moonset before sunset
with the next moonrise after local midnight, (b) moonset within one hour
after sunset, (c) next moonrise at least four hours after sunset; it is false
when sunset is unavailable; and when the moon sets more than one hour after
sunset and neither case (a) nor case (c) holds, it is false. -/
theorem moonFreeEvening_cases (ss : ℤ) (ms r : Option ℤ) (mid : ℤ) :
    (Canon.moonFreeEvening (some ss) ms r mid = true ↔
      ((∃ m, ms = some m ∧ m < ss) ∧ (∃ rr, r = some rr ∧ mid < rr)) ∨
      (∃ m, ms = some m ∧ ss ≤ m ∧ m ≤ ss + Canon.oneHourMs) ∨
      (∃ rr, r = some rr ∧ ss + Canon.fourHoursMs ≤ rr)) ∧
    Canon.moonFreeEvening none ms r mid = false ∧
    (∀ m, ms = some m → ss + Canon.oneHourMs < m →
      ¬((∃ m2, ms = some m2 ∧ m2 < ss) ∧ (∃ rr, r = some rr ∧ mid < rr)) →
      ¬(∃ rr, r = some rr ∧ ss + Canon.fourHoursMs ≤ rr) →
      Canon.moonFreeEvening (some ss) ms r mid = false) := by
  refine ⟨moonFreeEvening_iff ss ms r mid, rfl, ?_⟩
  intro m hm hlate hA hC
  rcases Bool.eq_false_or_eq_true (Canon.moonFreeEvening (some ss) ms r mid) with hb | hb
  · exfalso
    rcases (moonFreeEvening_iff ss ms r mid).mp hb with h1 | h2 | h3
    · exact hA h1
    · rcases h2 with ⟨m2, hm2, hge, hle⟩
      rw [hm] at hm2
      have hmm : m = m2 := by injection hm2
      omega
    · exact hC h3
  · exact hb

/-- Witness for C3: sunset at 0, moonset two hours later, no moonrise — no
case applies and the evening is not moon-free. -/
theorem moonFreeEvening_cases_witness :
    Canon.moonFreeEvening (some 0) (some 7200000) none 0 = false := by
  have h := (moonFreeEvening_cases 0 (some 7200000) none 0).2.2
  exact h 7200000 rfl (by decide) (by simp) (by simp)

/-- The source `average` on a two-element list. -/
theorem average_pair (a b : ℚ) : average [a, b] = (a + b) / 2 := by
  have h : ([a, b] : List ℚ) ≠ [] := by simp
  unfold average
  rw [if_neg h]
  norm_num

/-- The source `Math.max` on a two-element list. -/
theorem maxOf_pair (a b : ℚ) : maxOf [a, b] = max a b := rfl

/-- On the concrete two-sample inputs the bucket for day 0 exists and holds
both samples. -/
theorem processHourlyData_c8 :
    processHourlyData c8samples 0 = some (mkNightWeather (nightSamples c8samples 0)) := rfl

/-- On the concrete favourable two-sample inputs the bucket for day 0 exists
and holds both samples. -/
theorem processHourlyData_c10 :
    processHourlyData c10samples 0 = some (mkNightWeather (nightSamples c10samples 0)) := rfl

/-- Claim C8 (amended): the bucketing rule — hour in [20, 23] under the
sample's own date, hour in [0, 2] under the previous date, other hours in no
bucket; an emitted bucket reports the half-up-rounded arithmetic mean of its
samples for cloud cover, temperature, wind speed, visibility and humidity and
the rounded maximum for precipitation probability; a date with zero night
samples gets no bucket at all. -/
theorem processHourlyData_bucketing (samples : List HourlySample) (d : ℤ) :
    nightSamples samples d
      = samples.filter (fun s =>
          decide ((20 ≤ s.hour.val ∧ s.day = d) ∨ (s.hour.val ≤ 2 ∧ s.day = d + 1))) ∧
    (processHourlyData samples d = none ↔ nightSamples samples d = []) ∧
    (∀ w, processHourlyData samples d = some w →
      w.cloudCover = jsRound (average ((nightSamples samples d).map HourlySample.cloudCover)) ∧
      w.temperature = jsRound (average ((nightSamples samples d).map HourlySample.temperature)) ∧
      w.windSpeed = jsRound (average ((nightSamples samples d).map HourlySample.windSpeed)) ∧
      w.visibility = jsRound (average ((nightSamples samples d).map HourlySample.visibility)) ∧
      w.humidity = jsRound (average ((nightSamples samples d).map HourlySample.humidity)) ∧
      w.precipitationProb
        = jsRound (maxOf ((nightSamples samples d).map HourlySample.precipitationProb))) := by
  refine ⟨?_, ?_, ?_⟩
  · unfold nightSamples
    refine List.filter_congr ?_
    intro s _
    have hh := s.hour.isLt
    rw [decide_eq_decide]
    unfold nightBucketDay
    split_ifs with h1 h2
    · rw [Option.some.injEq]
      constructor
      · intro hx; exact Or.inl ⟨h1, hx⟩
      · rintro (⟨_, hd⟩ | ⟨hx2, _⟩)
        · exact hd
        · omega
    · rw [Option.some.injEq]
      constructor
      · intro hx; exact Or.inr ⟨h2, by omega⟩
      · rintro (⟨hx1, _⟩ | ⟨_, hd⟩)
        · omega
        · omega
    · constructor
      · intro hx; simp at hx
      · rintro (⟨hx1, _⟩ | ⟨hx2, _⟩) <;> omega
  · unfold processHourlyData
    split_ifs with h <;> simp [h]
  · intro w hw
    unfold processHourlyData at hw
    split_ifs at hw with h
    have hwe : w = mkNightWeather (nightSamples samples d) := by
      injection hw with hw2
      exact hw2.symm
    subst hwe
    exact ⟨rfl, rfl, rfl, rfl, rfl, rfl⟩

/-- Witness for C8: on the concrete two-sample input the emitted bucket's
cloud-cover field equals the rounded mean. -/
theorem processHourlyData_bucketing_witness :
    (mkNightWeather (nightSamples c8samples 0)).cloudCover
      = jsRound (average ((nightSamples c8samples 0).map HourlySample.cloudCover)) := by
  have h := (processHourlyData_bucketing c8samples 0).2.2
    (mkNightWeather (nightSamples c8samples 0)) processHourlyData_c8
  exact h.1

/-- Counterexample for C8 as stated: the bucket built from two samples with
cloud cover 29 and 30 reports cloud cover 30, while the arithmetic mean of its
samples is 59/2 — the reported field is the rounded mean, not the mean. -/
theorem processHourlyData_mean_counterexample :
    (processHourlyData c8samples 0).map NightWeather.cloudCover = some 30 ∧
    average ((nightSamples c8samples 0).map HourlySample.cloudCover) = 59/2 ∧
    decide ((30 : ℚ) = 59/2) = false := by
  have hmap : (nightSamples c8samples 0).map HourlySample.cloudCover = [29, 30] := rfl
  refine ⟨?_, ?_, by norm_num⟩
  · rw [processHourlyData_c8, Option.map_some']
    have hcc : (mkNightWeather (nightSamples c8samples 0)).cloudCover
        = jsRound (average [29, 30]) := by
      show jsRound (average ((nightSamples c8samples 0).map HourlySample.cloudCover)) = _
      rw [hmap]
    rw [hcc, average_pair]
    unfold jsRound
    norm_num
  · rw [hmap, average_pair]
    norm_num

/-- Claim C10: in every emitted bucket the `isGoodWeather` flag implies the
`isClear` flag, and the flags are decided by the unrounded averages while the
reported numeric fields are rounded — on the concrete input with cloud covers
29 and 30 the bucket reports cloud cover 30 yet `isClear` is true. -/
theorem flags_use_unrounded_averages :
    (∀ samples d w, processHourlyData samples d = some w →
      w.isGoodWeather = true → w.isClear = true) ∧
    (processHourlyData c10samples 0).map (fun w => (w.cloudCover, w.isClear))
      = some (30, true) := by
  constructor
  · intro samples d w hw hg
    unfold processHourlyData at hw
    split_ifs at hw with h
    have hwe : w = mkNightWeather (nightSamples samples d) := by
      injection hw with hw2
      exact hw2.symm
    subst hwe
    unfold mkNightWeather at hg ⊢
    simp only [Bool.and_eq_true] at hg
    exact hg.1.1
  · rw [processHourlyData_c10, Option.map_some']
    have hmap : (nightSamples c10samples 0).map HourlySample.cloudCover = [29, 30] := rfl
    have hcc : (mkNightWeather (nightSamples c10samples 0)).cloudCover
        = jsRound (average [29, 30]) := by
      show jsRound (average ((nightSamples c10samples 0).map HourlySample.cloudCover)) = _
      rw [hmap]
    have hic : (mkNightWeather (nightSamples c10samples 0)).isClear
        = decide (average [(29 : ℚ), 30] < 30) := by
      show decide (average ((nightSamples c10samples 0).map HourlySample.cloudCover) < 30) = _
      rw [hmap]
    rw [Option.some.injEq, Prod.ext_iff]
    constructor
    · show (mkNightWeather (nightSamples c10samples 0)).cloudCover = 30
      rw [hcc, average_pair]
      unfold jsRound
      norm_num
    · show (mkNightWeather (nightSamples c10samples 0)).isClear = true
      rw [hic, average_pair]
      norm_num

/-- Witness for C10: the concrete bucket has good weather, and the theorem
yields that it is clear. -/
theorem flags_use_unrounded_averages_witness :
    (mkNightWeather (nightSamples c10samples 0)).isClear = true := by
  refine flags_use_unrounded_averages.1 c10samples 0
    (mkNightWeather (nightSamples c10samples 0)) processHourlyData_c10 ?_
  have hgw : (mkNightWeather (nightSamples c10samples 0)).isGoodWeather
      = (decide (average [(29 : ℚ), 30] < 30) && decide (maxOf [(0 : ℚ), 0] < 20)
          && decide (average [(5 : ℚ), 5] < 25)) := rfl
  rw [hgw, average_pair, average_pair, maxOf_pair]
  norm_num

end OwlTrek
